import Mathlib

set_option maxRecDepth 100000

/-!
Verification of the archive-filter tool in src/export_tarball.py.

The tool walks a source tree and streams entries into a tar archive.
The logic verified here is:
  - the keep/drop decision of MyTarFile.add (one call per visited entry),
  - the metadata normalization of MyTarFile.__filter,
  - the exit-code and message behaviour of main.

File-system facts (os.path.islink, os.path.exists, os.path.isfile, the
relative path, the split into directory part and base name) are supplied
by the traversal; an Entry record carries them as fields, exactly the
values the Python code reads.
-/

/-- The tuple nonessential_dirs of export_tarball.py: the first block plus
the lite-tarball block that is concatenated onto it. -/
def nonessential_dirs : List String :=
  [ "third_party/blink/tools",
    "third_party/blink/web_tests",
    "third_party/hunspell_dictionaries",
    "third_party/hunspell/tests",
    "third_party/jdk/current",
    "third_party/jdk/extras",
    "third_party/liblouis/src/tests/braille-specs",
    "third_party/xdg-utils/tests",
    "v8/test",
    "android_webview",
    "build/linux/debian_bullseye_amd64-sysroot",
    "build/linux/debian_bullseye_i386-sysroot",
    "buildtools/reclient",
    "chrome/android",
    "chromecast",
    "ios",
    "native_client",
    "native_client_sdk",
    "third_party/android_platform",
    "third_party/angle/third_party/VK-GL-CTS",
    "third_party/apache-linux",
    "third_party/catapult/third_party/vinn/third_party/v8",
    "third_party/closure_compiler",
    "third_party/instrumented_libs",
    "third_party/llvm",
    "third_party/llvm-build",
    "third_party/llvm-build-tools",
    "third_party/node/linux",
    "third_party/rust-src",
    "third_party/rust-toolchain",
    "third_party/webgl" ]

/-- The tuple ESSENTIAL_FILES of export_tarball.py. -/
def ESSENTIAL_FILES : List String :=
  [ "chrome/test/data/webui/i18n_process_css_test.html",
    "chrome/test/data/webui/mojo/foobar.mojom",
    "v8/test/torque/test-torque.tq" ]

/-- The tuple ESSENTIAL_GIT_DIRS of export_tarball.py. -/
def ESSENTIAL_GIT_DIRS : List String :=
  [ "third_party/rust-src/" ]

/-- The tuple TEST_DIRS of export_tarball.py. -/
def TEST_DIRS : List String :=
  [ "base/tracing/test/data",
    "chrome/test/data",
    "components/test/data",
    "content/test/data/accessibility",
    "content/test/data/gpu",
    "content/test/data/media",
    "courgette/testdata",
    "extensions/test/data",
    "media/test/data",
    "native_client/src/trusted/service_runtime/testdata",
    "testing/libfuzzer/fuzzers/wasm_corpus",
    "third_party/blink/perf_tests",
    "third_party/breakpad/breakpad/src/processor/testdata",
    "third_party/catapult/tracing/test_data",
    "third_party/dawn/test",
    "third_party/expat/src/testdata",
    "third_party/harfbuzz-ng/src/test",
    "third_party/llvm/llvm/test",
    "third_party/ots/src/tests/fonts",
    "third_party/rust-src/src/gcc/gcc/testsuite",
    "third_party/rust-src/src/llvm-project/clang/test",
    "third_party/rust-src/src/llvm-project/llvm/test",
    "third_party/screen-ai/linux/resources",
    "third_party/sqlite/src/test",
    "third_party/swiftshader/tests/regres",
    "third_party/test_fonts/test_fonts",
    "tools/perf/testdata" ]

/-- Substring containment on character lists: the Python operator
needle in hay. -/
def containsSub (needle : List Char) : List Char → Bool
  | [] => needle.isEmpty
  | c :: t => needle.isPrefixOf (c :: t) || containsSub needle t

/-- The Python membership test needle in hay on strings. -/
def strContains (hay needle : String) : Bool :=
  containsSub needle.toList hay.toList

/-- The Python method s.startswith(p), computed on character lists. -/
def strStartsWith (s p : String) : Bool :=
  p.toList.isPrefixOf s.toList

/-- The Python method s.endswith(p), computed on character lists. -/
def strEndsWith (s p : String) : Bool :=
  p.toList.isSuffixOf s.toList

/-- Characters matched by the regex class backslash-s in Python (ASCII). -/
def isPatternSpace (c : Char) : Bool :=
  c == ' ' || c == '\t' || c == '\n' || c == '\r' || c == '\x0b' || c == '\x0c'

/-- The alternatives of the group (gn|gni|grd|grdp|isolate|pydeps). -/
def extAlternatives : List (List Char) :=
  (["gn", "gni", "grd", "grdp", "isolate", "pydeps"]).map String.toList

/-- Does the regex of MyTarFile.add match starting at the head of l and
reaching the end of the string: a dot, one alternative, then optionally a
dot followed by one or more non-space characters, then end. -/
def matchHere (l : List Char) : Bool :=
  extAlternatives.any fun ext =>
    ('.' :: ext).isPrefixOf l &&
      (let rest := l.drop ('.' :: ext).length
       rest.isEmpty ||
         (match rest with
          | '.' :: t => !t.isEmpty && t.all (fun c => !isPatternSpace c)
          | _ => false))

/-- re.search semantics for the end-anchored pattern: a match may start at
any position of the string. -/
def searchKeepPattern : List Char → Bool
  | [] => false
  | c :: t => matchHere (c :: t) || searchKeepPattern t

/-- The test re.search applied to the base name by MyTarFile.add in
size-reduction mode. -/
def matchesKeepPattern (s : String) : Bool :=
  searchKeepPattern s.toList

/-- One filesystem entry as seen by one call of MyTarFile.add.
name is the absolute path argument; rel_name is os.path.relpath of it
against the source root; file_path and file_name are the two halves of
os.path.split; the three Booleans are os.path.islink, os.path.exists and
os.path.isfile on name. -/
structure Entry where
  name : String
  rel_name : String
  file_path : String
  file_name : String
  islink : Bool
  path_exists : Bool
  isfile : Bool
deriving DecidableEq

/-- The keep_file expression of MyTarFile.add: the base name matches the
build-critical pattern, or the relative path is one of ESSENTIAL_FILES. -/
def keep_file (e : Entry) : Bool :=
  matchesKeepPattern e.file_name || decide (e.rel_name ∈ ESSENTIAL_FILES)

/-- The membership test of the subtree rule: the relative path equals a
listed directory or extends it past a slash.  The Python code takes the
union of the two tuples as a set; only membership is used, so list
concatenation models it. -/
def rel_under_dirs (r : String) : Bool :=
  (nonessential_dirs ++ TEST_DIRS).any fun p =>
    decide (r = p) || strStartsWith r (p ++ "/")

/-- The test guarding the .git rule: some ESSENTIAL_GIT_DIRS entry is a
prefix of the relative path. -/
def git_essential (r : String) : Bool :=
  ESSENTIAL_GIT_DIRS.any fun p => strStartsWith r p

/-- The keep/drop decision of MyTarFile.add, one branch per early return
of the Python method, in source order.  True means the entry is added,
false means it is skipped. -/
def shouldAdd (remove_nonessential : Bool) (e : Entry) : Bool :=
  if e.islink ∧ ¬ e.path_exists then false
  else if e.file_name = "__pycache__" ∨ strEndsWith e.file_name ".pyc" then false
  else if (e.file_name = ".svn" ∨ e.file_name = "out") ∧
      ¬ strContains e.file_path "node_modules" then false
  else if e.file_name = ".git" ∧ ¬ git_essential e.rel_name then false
  else if remove_nonessential then
    if strContains e.name "ChangeLog" then false
    else if ¬ keep_file e ∧ rel_under_dirs e.rel_name ∧ (e.isfile ∨ e.islink)
      then false
    else true
  else true

/-- The metadata record of one archive member, with the fields the
tarfile filter callback reads or writes plus the remaining identifying
fields of a TarInfo object. -/
structure TarInfo where
  name : String
  size : Nat
  mtime : Int
  mode : Nat
  uid : Nat
  gid : Nat
  uname : String
  gname : String
  typeflag : String
  linkname : String
  devmajor : Nat
  devminor : Nat
deriving DecidableEq

attribute [ext] TarInfo

/-- stat.S_IWUSR, the owner-write permission bit (octal 200). -/
def S_IWUSR : Nat := 0o200

/-- The method MyTarFile.__filter: the normalizer applied to every
record written to the archive.  mtime is the run-wide timestamp stored
by set_mtime. -/
def filterTarInfo (mtime : Int) (ti : TarInfo) : TarInfo :=
  { ti with
    mtime := mtime
    mode := ti.mode ||| S_IWUSR
    uid := 0
    gid := 0
    uname := "0"
    gname := "0" }

/-- The records one run writes to the archive: the traversal presents
each entry with its on-disk metadata record; entries approved by the
add decision are written after normalization with the run-wide
timestamp. -/
def writtenEntries (remove_nonessential : Bool) (mtime : Int)
    (tree : List (Entry × TarInfo)) : List TarInfo :=
  (tree.filter fun p => shouldAdd remove_nonessential p.1).map
    fun p => filterTarInfo mtime p.2

/-- The environment main reads: positional arguments after option
parsing, the --version value, the --src-dir value and whether that
directory exists, the --test-data flag, the os.path.isdir answers for
the test directories, and the exit status of the xz child process. -/
structure MainEnv where
  args : List String
  version : Option String
  src_dir : String
  src_dir_exists : Bool
  test_data : Bool
  isdir : String → Bool
  xz_exit : Int

/-- Truth test of the Python guard not options.version: the option is
absent or the empty string. -/
def no_version : Option String → Bool
  | none => true
  | some s => decide (s = "")

/-- os.path.join for a relative second component, as used by main. -/
def path_join (a b : String) : String :=
  if a = "" then b
  else if strEndsWith a "/" then a ++ b
  else a ++ "/" ++ b

/-- The message printed for an absent test directory. -/
def skip_notice (d : String) : String :=
  "\"" ++ d ++ "\" not present; skipping."

/-- The function main of export_tarball.py, modelled on its non-raising
paths: the returned exit code paired with the messages main itself
prints, in order.  Per-entry verbose logging happens inside the archive
object and is not part of these messages. -/
def mainResult (env : MainEnv) : Nat × List String :=
  if env.args.length ≠ 1 then
    (1, ["You must provide only one argument: output file name",
         "(without .tar.xz extension)."])
  else if no_version env.version then
    (1, ["A version number must be provided via the --version option."])
  else if ¬ env.src_dir_exists then
    (1, ["Cannot find the src directory " ++ env.src_dir])
  else
    let skips :=
      if env.test_data then
        (TEST_DIRS.filter fun d => !env.isdir (path_join env.src_dir d)).map
          fun d => skip_notice (path_join env.src_dir d)
      else []
    if env.xz_exit ≠ 0 then (1, skips ++ ["xz -9 failed!"])
    else (0, skips)

/-- Claim C5: a symbolic link whose target does not exist is dropped by
the add decision, whatever the mode flags, with no condition on any other
attribute of the entry (the rule precedes all others). -/
theorem c5_broken_symlink_dropped (m : Bool) (e : Entry)
    (h1 : e.islink = true) (h2 : e.path_exists = false) :
    shouldAdd m e = false := by
  simp [shouldAdd, h1, h2]

/-- Witness for C5: a dangling link under the source root is dropped. -/
theorem c5_broken_symlink_dropped_witness :
    shouldAdd false
      { name := "/src/docs/stale_link", rel_name := "docs/stale_link",
        file_path := "/src/docs", file_name := "stale_link",
        islink := true, path_exists := false, isfile := false } = false :=
  c5_broken_symlink_dropped false _ rfl rfl

/-- Claim C4: an entry whose base name is .git and whose relative path
does not start with an ESSENTIAL_GIT_DIRS prefix is dropped in every
mode. -/
theorem c4_git_dropped (m : Bool) (e : Entry)
    (hname : e.file_name = ".git")
    (hgit : git_essential e.rel_name = false) :
    shouldAdd m e = false := by
  have hg : ¬ git_essential e.rel_name = true := by simp [hgit]
  unfold shouldAdd
  split_ifs with h1 h2 h3 h4 <;>
    first
      | rfl
      | exact absurd ⟨hname, hg⟩ h4

/-- Witness for C4: a .git directory outside the Rust checkout is
dropped even with size reduction off. -/
theorem c4_git_dropped_witness :
    shouldAdd false
      { name := "/src/v8/.git", rel_name := "v8/.git",
        file_path := "/src/v8", file_name := ".git",
        islink := false, path_exists := true, isfile := false } = false :=
  c4_git_dropped false _ rfl (by decide)

/-- Claim C6: the ESSENTIAL_FILES entry
chrome/test/data/webui/i18n_process_css_test.html is kept in
size-reduction mode although its relative path lies under the test-data
directory chrome/test/data. -/
theorem c6_essential_override_kept :
    "chrome/test/data/webui/i18n_process_css_test.html" ∈ ESSENTIAL_FILES ∧
    rel_under_dirs "chrome/test/data/webui/i18n_process_css_test.html" = true ∧
    shouldAdd true
      { name := "/src/chrome/test/data/webui/i18n_process_css_test.html",
        rel_name := "chrome/test/data/webui/i18n_process_css_test.html",
        file_path := "/src/chrome/test/data/webui",
        file_name := "i18n_process_css_test.html",
        islink := false, path_exists := true, isfile := true } = true := by
  decide

/-- Counterexample to C3 as stated: the exception for node_modules is a
plain substring test on the parent path, not a test for a path component
literally named node_modules.  Here the parent path has no component
node_modules (no slash-delimited occurrence, no occurrence at either
end), yet an entry named out below it is kept, where the claim says it is
still dropped. -/
theorem c3_substring_counterexample :
    strContains "/src/foo_node_modules_bar" "node_modules" = true ∧
    strContains "/src/foo_node_modules_bar" "/node_modules/" = false ∧
    strStartsWith "/src/foo_node_modules_bar" "node_modules/" = false ∧
    strEndsWith "/src/foo_node_modules_bar" "/node_modules" = false ∧
    shouldAdd false
      { name := "/src/foo_node_modules_bar/out",
        rel_name := "foo_node_modules_bar/out",
        file_path := "/src/foo_node_modules_bar", file_name := "out",
        islink := false, path_exists := true, isfile := false } = true ∧
    shouldAdd true
      { name := "/src/foo_node_modules_bar/out",
        rel_name := "foo_node_modules_bar/out",
        file_path := "/src/foo_node_modules_bar", file_name := "out",
        islink := false, path_exists := true, isfile := false } = true := by
  decide

/-- Claim C3 as amended: for an entry named .svn or out, if the parent
path does not contain the substring node_modules the entry is dropped in
every mode; if the parent path does contain that substring (a component
check is not performed, a longer name containing it also qualifies) the
rule does not fire, and the entry is kept when no other rule applies,
for instance when it is not a dangling link and size reduction is off. -/
theorem c3_svn_out_rule (e : Entry)
    (hname : e.file_name = ".svn" ∨ e.file_name = "out") :
    (strContains e.file_path "node_modules" = false →
      ∀ m, shouldAdd m e = false) ∧
    (strContains e.file_path "node_modules" = true →
      e.islink = false ∨ e.path_exists = true →
      shouldAdd false e = true) := by
  constructor
  · intro hnm m
    have hc : ¬ strContains e.file_path "node_modules" = true := by simp [hnm]
    unfold shouldAdd
    split_ifs with h1 h2 h3 <;>
      first
        | rfl
        | exact absurd ⟨hname, hc⟩ h3
  · intro hnm hlink
    have h1 : ¬ (e.islink = true ∧ ¬ e.path_exists = true) := by
      rcases hlink with h | h <;> simp [h]
    have h2 : ¬ (e.file_name = "__pycache__" ∨
        strEndsWith e.file_name ".pyc" = true) := by
      rcases hname with h | h <;> rw [h] <;> decide
    have h3 : ¬ ((e.file_name = ".svn" ∨ e.file_name = "out") ∧
        ¬ strContains e.file_path "node_modules" = true) := by
      simp [hnm]
    have h4 : ¬ (e.file_name = ".git" ∧ ¬ git_essential e.rel_name = true) := by
      rcases hname with h | h <;> simp [h]
    simp only [shouldAdd, if_neg h1, if_neg h2, if_neg h3, if_neg h4,
      Bool.false_eq_true, if_false]

/-- Witness for C3: an out directory of a packaged node module is kept
with size reduction off, and an out directory elsewhere is dropped. -/
theorem c3_svn_out_rule_witness :
    shouldAdd false
      { name := "/src/third_party/node/node_modules/m/out",
        rel_name := "third_party/node/node_modules/m/out",
        file_path := "/src/third_party/node/node_modules/m",
        file_name := "out",
        islink := false, path_exists := true, isfile := false } = true ∧
    shouldAdd true
      { name := "/src/v8/out", rel_name := "v8/out",
        file_path := "/src/v8", file_name := "out",
        islink := false, path_exists := true, isfile := false } = false :=
  ⟨(c3_svn_out_rule _ (Or.inr rfl)).2 (by decide) (Or.inl rfl),
   (c3_svn_out_rule _ (Or.inr rfl)).1 (by decide) true⟩

/-- Counterexample to C1 as stated: a regular file under a listed
nonessential directory whose base name does not match the keep pattern
and whose relative path is not an essential override is nevertheless
dropped with size reduction off, because the unconditional bytecode rule
fires on the .pyc suffix. -/
theorem c1_counterexample :
    rel_under_dirs "third_party/blink/web_tests/foo.pyc" = true ∧
    matchesKeepPattern "foo.pyc" = false ∧
    ¬ "third_party/blink/web_tests/foo.pyc" ∈ ESSENTIAL_FILES ∧
    shouldAdd false
      { name := "/src/third_party/blink/web_tests/foo.pyc",
        rel_name := "third_party/blink/web_tests/foo.pyc",
        file_path := "/src/third_party/blink/web_tests",
        file_name := "foo.pyc",
        islink := false, path_exists := true, isfile := true } = false := by
  decide

/-- Claim C1 as amended: for a regular file whose relative path equals or
extends (past a slash) a listed nonessential or test-data directory,
whose base name does not match the keep pattern and whose relative path
is not an essential override, and which none of the unconditional rules
drops (base name not a bytecode cache, not .svn or out away from a
node_modules path, not .git outside the essential git prefixes), the add
decision drops the file when size reduction is on and keeps it when size
reduction is off. -/
theorem c1_nonessential_subtree (e : Entry)
    (hfile : e.isfile = true) (hlink : e.islink = false)
    (hunder : rel_under_dirs e.rel_name = true)
    (hpat : matchesKeepPattern e.file_name = false)
    (hess : ¬ e.rel_name ∈ ESSENTIAL_FILES)
    (hcache : ¬ (e.file_name = "__pycache__" ∨
      strEndsWith e.file_name ".pyc" = true))
    (hsvn : ¬ ((e.file_name = ".svn" ∨ e.file_name = "out") ∧
      ¬ strContains e.file_path "node_modules" = true))
    (hgit : ¬ (e.file_name = ".git" ∧ ¬ git_essential e.rel_name = true)) :
    shouldAdd true e = false ∧ shouldAdd false e = true := by
  have h1 : ¬ (e.islink = true ∧ ¬ e.path_exists = true) := by simp [hlink]
  have hkf : ¬ keep_file e = true := by simp [keep_file, hpat, hess]
  constructor
  · simp only [shouldAdd, if_neg h1, if_neg hcache, if_neg hsvn, if_neg hgit]
    by_cases hcl : strContains e.name "ChangeLog" = true
    · simp [hcl]
    · have hc : ¬ keep_file e = true ∧ rel_under_dirs e.rel_name = true ∧
          (e.isfile = true ∨ e.islink = true) := ⟨hkf, hunder, Or.inl hfile⟩
      simp only [if_neg hcl, if_pos hc]
      simp
  · simp only [shouldAdd, if_neg h1, if_neg hcache, if_neg hsvn, if_neg hgit,
      Bool.false_eq_true, if_false]

/-- Witness for C1: the path third_party/blink/web_tests/foo.html from
the specification example is dropped with size reduction on and kept
with it off. -/
theorem c1_nonessential_subtree_witness :
    shouldAdd true
      { name := "/src/third_party/blink/web_tests/foo.html",
        rel_name := "third_party/blink/web_tests/foo.html",
        file_path := "/src/third_party/blink/web_tests",
        file_name := "foo.html",
        islink := false, path_exists := true, isfile := true } = false ∧
    shouldAdd false
      { name := "/src/third_party/blink/web_tests/foo.html",
        rel_name := "third_party/blink/web_tests/foo.html",
        file_path := "/src/third_party/blink/web_tests",
        file_name := "foo.html",
        islink := false, path_exists := true, isfile := true } = true :=
  c1_nonessential_subtree _ rfl rfl (by decide) (by decide) (by decide)
    (by decide) (by decide) (by decide)

/-- Counterexample to C2 as stated: a file whose base name ends in .gn is
dropped in size-reduction mode when its absolute path contains the
substring ChangeLog, because that rule is checked before the keep
pattern. -/
theorem c2_counterexample :
    matchesKeepPattern "ChangeLog.gn" = true ∧
    shouldAdd true
      { name := "/src/third_party/blink/web_tests/ChangeLog.gn",
        rel_name := "third_party/blink/web_tests/ChangeLog.gn",
        file_path := "/src/third_party/blink/web_tests",
        file_name := "ChangeLog.gn",
        islink := false, path_exists := true, isfile := true } = false := by
  decide

/-- Claim C2 as amended: in size-reduction mode a file whose base name
matches the keep pattern (.gn, .gni, .grd, .grdp, .isolate or .pydeps,
optionally followed by one extra dotted suffix) is kept, also under a
listed nonessential directory, provided the entry is not a dangling
link, its absolute path does not contain the substring ChangeLog, and
its base name does not end in .pyc (an extra suffix can make the
bytecode rule fire first). -/
theorem c2_keep_pattern (e : Entry)
    (hpat : matchesKeepPattern e.file_name = true)
    (hlink : e.islink = false ∨ e.path_exists = true)
    (hcl : strContains e.name "ChangeLog" = false)
    (hpyc : strEndsWith e.file_name ".pyc" = false) :
    shouldAdd true e = true := by
  have h1 : ¬ (e.islink = true ∧ ¬ e.path_exists = true) := by
    rcases hlink with h | h <;> simp [h]
  have hnpy : e.file_name ≠ "__pycache__" := by
    intro h; rw [h] at hpat; exact absurd hpat (by decide)
  have hnsvn : e.file_name ≠ ".svn" := by
    intro h; rw [h] at hpat; exact absurd hpat (by decide)
  have hnout : e.file_name ≠ "out" := by
    intro h; rw [h] at hpat; exact absurd hpat (by decide)
  have hngit : e.file_name ≠ ".git" := by
    intro h; rw [h] at hpat; exact absurd hpat (by decide)
  have h2 : ¬ (e.file_name = "__pycache__" ∨
      strEndsWith e.file_name ".pyc" = true) := by simp [hnpy, hpyc]
  have h3 : ¬ ((e.file_name = ".svn" ∨ e.file_name = "out") ∧
      ¬ strContains e.file_path "node_modules" = true) := by
    simp [hnsvn, hnout]
  have h4 : ¬ (e.file_name = ".git" ∧ ¬ git_essential e.rel_name = true) := by
    simp [hngit]
  have h5 : ¬ strContains e.name "ChangeLog" = true := by simp [hcl]
  have h6 : ¬ (¬ keep_file e = true ∧ rel_under_dirs e.rel_name = true ∧
      (e.isfile = true ∨ e.islink = true)) := by
    simp [keep_file, hpat]
  simp only [shouldAdd, if_neg h1, if_neg h2, if_neg h3, if_neg h4,
    if_neg h5, if_neg h6]
  simp

/-- Witness for C2: a BUILD.gn file under the blink web tests directory
is kept in size-reduction mode. -/
theorem c2_keep_pattern_witness :
    shouldAdd true
      { name := "/src/third_party/blink/web_tests/BUILD.gn",
        rel_name := "third_party/blink/web_tests/BUILD.gn",
        file_path := "/src/third_party/blink/web_tests",
        file_name := "BUILD.gn",
        islink := false, path_exists := true, isfile := true } = true :=
  c2_keep_pattern _ (by decide) (Or.inl rfl) (by decide) (by decide)

/-- Sample entry used by concrete instantiations: a kept regular file. -/
def sampleEntry : Entry :=
  { name := "/src/README.md", rel_name := "README.md", file_path := "/src",
    file_name := "README.md", islink := false, path_exists := true,
    isfile := true }

/-- Sample on-disk metadata record. -/
def sampleInfo : TarInfo :=
  { name := "tarball/README.md", size := 10, mtime := 111, mode := 0o644,
    uid := 1000, gid := 1000, uname := "alice", gname := "users",
    typeflag := "0", linkname := "", devmajor := 0, devminor := 0 }

/-- The same file as sampleInfo with different stored owner, group and
timestamp metadata. -/
def sampleInfo2 : TarInfo :=
  { sampleInfo with
    mtime := 222
    uid := 500
    gid := 77
    uname := "bob"
    gname := "wheel" }

/-- Claim C7: every record a run writes has the run-wide timestamp, zero
numeric owner and group ids, the string "0" as owner and group name, and
the owner-write permission bit (bit 7, octal 200) set. -/
theorem c7_normalized_metadata (m : Bool) (t : Int)
    (tree : List (Entry × TarInfo)) (ti : TarInfo)
    (hmem : ti ∈ writtenEntries m t tree) :
    ti.mtime = t ∧ ti.uid = 0 ∧ ti.gid = 0 ∧
    ti.uname = "0" ∧ ti.gname = "0" ∧ ti.mode.testBit 7 = true := by
  simp only [writtenEntries] at hmem
  rcases List.mem_map.mp hmem with ⟨p, hp, rfl⟩
  refine ⟨rfl, rfl, rfl, rfl, rfl, ?_⟩
  show (p.2.mode ||| S_IWUSR).testBit 7 = true
  rw [Nat.testBit_lor]
  have h7 : S_IWUSR.testBit 7 = true := by decide
  simp [h7]

/-- Witness for C7: the normalized record of a sample file written by a
run with timestamp 1700000000. -/
theorem c7_normalized_metadata_witness :
    (filterTarInfo 1700000000 sampleInfo).mtime = 1700000000 ∧
    (filterTarInfo 1700000000 sampleInfo).uid = 0 ∧
    (filterTarInfo 1700000000 sampleInfo).gid = 0 ∧
    (filterTarInfo 1700000000 sampleInfo).uname = "0" ∧
    (filterTarInfo 1700000000 sampleInfo).gname = "0" ∧
    (filterTarInfo 1700000000 sampleInfo).mode.testBit 7 = true :=
  c7_normalized_metadata true 1700000000 [(sampleEntry, sampleInfo)]
    (filterTarInfo 1700000000 sampleInfo) (by decide)

/-- Agreement of two traversals over byte-identical trees: the filter
inputs and the identifying metadata coincide; the stored owner, group
and timestamp fields are unconstrained. -/
def sameTree (p q : Entry × TarInfo) : Prop :=
  p.1 = q.1 ∧ p.2.name = q.2.name ∧ p.2.size = q.2.size ∧
  p.2.mode = q.2.mode ∧ p.2.typeflag = q.2.typeflag ∧
  p.2.linkname = q.2.linkname ∧ p.2.devmajor = q.2.devmajor ∧
  p.2.devminor = q.2.devminor

/-- Two runs with one timestamp over agreeing trees write identical
record lists. -/
theorem writtenEntries_eq_of_sameTree (m : Bool) (t : Int)
    {es1 es2 : List (Entry × TarInfo)} (h : List.Forall₂ sameTree es1 es2) :
    writtenEntries m t es1 = writtenEntries m t es2 := by
  induction h with
  | nil => rfl
  | cons hab hrest ih =>
    rename_i a b l1 l2
    obtain ⟨h1, hn, hs, hm2, htf, hl, hdM, hdm⟩ := hab
    have hadd : shouldAdd m a.1 = shouldAdd m b.1 := by rw [h1]
    have hfi : filterTarInfo t a.2 = filterTarInfo t b.2 :=
      TarInfo.ext hn hs rfl
        (by show a.2.mode ||| S_IWUSR = b.2.mode ||| S_IWUSR; rw [hm2])
        rfl rfl rfl rfl htf hl hdM hdm
    simp only [writtenEntries] at ih ⊢
    rw [List.filter_cons, List.filter_cons, hadd]
    rcases Bool.eq_false_or_eq_true (shouldAdd m b.1) with hb | hb <;>
      rw [hb] <;> simp [hfi, ih]

/-- The archive metadata of one record named by claim C8: modification
time, numeric owner and group ids, owner and group names. -/
def entryMeta (ti : TarInfo) : Int × Nat × Nat × String × String :=
  (ti.mtime, ti.uid, ti.gid, ti.uname, ti.gname)

/-- Claim C8: two runs over byte-identical trees with one provenance
timestamp write per-entry metadata (mtime, uid, gid, uname, gname) that
is identical entry by entry, whatever owner, group and timestamp values
the two filesystems stored. -/
theorem c8_metadata_determinism (m : Bool) (t : Int)
    (es1 es2 : List (Entry × TarInfo))
    (h : List.Forall₂ sameTree es1 es2) :
    (writtenEntries m t es1).map entryMeta
      = (writtenEntries m t es2).map entryMeta := by
  rw [writtenEntries_eq_of_sameTree m t h]

/-- Witness for C8: the same file stored with two different owners,
groups and timestamps yields the same written metadata. -/
theorem c8_metadata_determinism_witness :
    (writtenEntries true 1700000000 [(sampleEntry, sampleInfo)]).map entryMeta
      = (writtenEntries true 1700000000 [(sampleEntry, sampleInfo2)]).map
          entryMeta :=
  c8_metadata_determinism true 1700000000 [(sampleEntry, sampleInfo)]
    [(sampleEntry, sampleInfo2)]
    (List.Forall₂.cons ⟨rfl, rfl, rfl, rfl, rfl, rfl, rfl, rfl⟩
      List.Forall₂.nil)

/-- Claim C10: the normalizer changes only the six metadata fields
mtime, mode, uid, gid, uname and gname; the identifying fields are
returned unchanged, and the mode only gains the owner-write bit, so
every permission bit set before stays set. -/
theorem c10_normalizer_frame (t : Int) (ti : TarInfo) :
    (filterTarInfo t ti).name = ti.name ∧
    (filterTarInfo t ti).size = ti.size ∧
    (filterTarInfo t ti).typeflag = ti.typeflag ∧
    (filterTarInfo t ti).linkname = ti.linkname ∧
    (filterTarInfo t ti).devmajor = ti.devmajor ∧
    (filterTarInfo t ti).devminor = ti.devminor ∧
    (filterTarInfo t ti).mode = (ti.mode ||| S_IWUSR) ∧
    ∀ i, ti.mode.testBit i = true →
      (filterTarInfo t ti).mode.testBit i = true := by
  refine ⟨rfl, rfl, rfl, rfl, rfl, rfl, rfl, ?_⟩
  intro i h
  show (ti.mode ||| S_IWUSR).testBit i = true
  rw [Nat.testBit_lor, h]
  rfl

/-- Witness for C10: the sample record keeps its name and its group-read
bit after normalization. -/
theorem c10_normalizer_frame_witness :
    (filterTarInfo 7 sampleInfo).name = sampleInfo.name ∧
    (filterTarInfo 7 sampleInfo).mode.testBit 2 = true :=
  ⟨(c10_normalizer_frame 7 sampleInfo).1,
   (c10_normalizer_frame 7 sampleInfo).2.2.2.2.2.2.2 2 (by decide)⟩

/-- Claim C9: main returns 0 exactly when one positional argument is
given, a version is supplied, the source directory exists and the
compressor exits zero; and in test-data mode every absent test
directory produces a skip notice among the printed messages without
affecting the exit code. -/
theorem c9_main_exit (env : MainEnv) :
    ((mainResult env).1 = 0 ↔
      (env.args.length = 1 ∧ no_version env.version = false ∧
        env.src_dir_exists = true ∧ env.xz_exit = 0)) ∧
    (env.args.length = 1 → no_version env.version = false →
      env.src_dir_exists = true → env.test_data = true →
      ∀ d, d ∈ TEST_DIRS → env.isdir (path_join env.src_dir d) = false →
        skip_notice (path_join env.src_dir d) ∈ (mainResult env).2) := by
  constructor
  · simp only [mainResult]
    split_ifs with h1 h2 h3 h4 <;> simp_all
  · intro ha hv hs htd d hd hmiss
    have h1 : ¬ (env.args.length ≠ 1) := by simp [ha]
    have h2 : ¬ (no_version env.version = true) := by simp [hv]
    have h3 : ¬ ¬ (env.src_dir_exists = true) := by simp [hs]
    have hmem : skip_notice (path_join env.src_dir d) ∈
        (TEST_DIRS.filter fun x => !env.isdir (path_join env.src_dir x)).map
          fun x => skip_notice (path_join env.src_dir x) :=
      List.mem_map_of_mem _ (List.mem_filter.mpr ⟨hd, by simp [hmiss]⟩)
    simp only [mainResult, if_neg h1, if_neg h2, if_neg h3, htd,
      eq_self_iff_true, if_true]
    by_cases hxz : env.xz_exit ≠ 0
    · simp only [if_pos hxz]
      exact List.mem_append_left _ hmem
    · simp only [if_neg hxz]
      exact hmem

/-- Witness for C9: a run with one argument, a version, an existing
source directory, test-data mode, every test directory absent and a
clean compressor exit returns 0 and prints the skip notice for
chrome/test/data. -/
theorem c9_main_exit_witness :
    (mainResult
      { args := ["chromium-135"], version := some "135",
        src_dir := "/src", src_dir_exists := true, test_data := true,
        isdir := fun _ => false, xz_exit := 0 }).1 = 0 ∧
    skip_notice (path_join "/src" "chrome/test/data") ∈
      (mainResult
        { args := ["chromium-135"], version := some "135",
          src_dir := "/src", src_dir_exists := true, test_data := true,
          isdir := fun _ => false, xz_exit := 0 }).2 :=
  ⟨((c9_main_exit
      { args := ["chromium-135"], version := some "135",
        src_dir := "/src", src_dir_exists := true, test_data := true,
        isdir := fun _ => false, xz_exit := 0 }).1).mpr ⟨rfl, rfl, rfl, rfl⟩,
   (c9_main_exit
      { args := ["chromium-135"], version := some "135",
        src_dir := "/src", src_dir_exists := true, test_data := true,
        isdir := fun _ => false, xz_exit := 0 }).2 rfl rfl rfl rfl
     "chrome/test/data" (by decide) rfl⟩
